import Mathlib

/-!
Shallow embedding of the chat backend (GraphQL server with JWT identity
resolution, graphql-shield style field gating, and a conversation-keyed
publish/subscribe bus), together with theorems checking the specification
against it.  Definitions follow the source resolvers; external collaborators
(the prisma data store, the jsonwebtoken verifier, the PubSub topic bus and
the rule-composition engine) are modelled by their contracts.
-/

namespace Chat

/-- A stored user: `{ id, nickname }`. -/
structure User where
  id : Nat
  nickname : String
deriving DecidableEq, Repr

/-- A stored conversation; `participants` holds the ids of its member users. -/
structure Conversation where
  id : Nat
  title : String
  disabled : Bool
  participants : List Nat
deriving DecidableEq, Repr

/-- A stored message, connected to its author and conversation by id. -/
structure Message where
  id : Nat
  body : String
  authorId : Nat
  conversationId : Nat
deriving DecidableEq, Repr

/-- The external data store (prisma client): tables of users, conversations
and messages, plus a counter supplying fresh message ids. -/
structure Store where
  users : List User
  conversations : List Conversation
  messages : List Message
  nextMessageId : Nat
deriving DecidableEq, Repr

/-- `prisma.$exists.user({ id })`. -/
def Store.userExists (store : Store) (id : Nat) : Bool :=
  store.users.any (fun u => u.id = id)

/-- `prisma.user({ id })`: fetch a user by id (null when absent). -/
def Store.userById (store : Store) (id : Nat) : Option User :=
  store.users.find? (fun u => u.id = id)

/-- `prisma.conversation({ id })`: fetch a conversation by id (null when absent). -/
def Store.conversationById (store : Store) (id : Nat) : Option Conversation :=
  store.conversations.find? (fun c => c.id = id)

/-- Errors a resolver or rule can surface: a thrown JavaScript `TypeError`,
a `jsonwebtoken` verification error, or the rule engine's uniform
authorization rejection. -/
inductive JsError where
  | typeError (msg : String)
  | jwtError (msg : String)
  | notAuthorised
deriving DecidableEq, Repr

instance instDecEqExcept {ε α : Type} [DecidableEq ε] [DecidableEq α] :
    DecidableEq (Except ε α) := fun a b =>
  match a, b with
  | Except.ok x, Except.ok y =>
    if h : x = y then isTrue (by rw [h]) else isFalse (by intro hc; cases hc; exact h rfl)
  | Except.error x, Except.error y =>
    if h : x = y then isTrue (by rw [h]) else isFalse (by intro hc; cases hc; exact h rfl)
  | Except.ok _, Except.error _ => isFalse (by intro hc; cases hc)
  | Except.error _, Except.ok _ => isFalse (by intro hc; cases hc)

/-- The claims carried by a signed token: `{ id, nickname }`. -/
structure JwtPayload where
  id : Nat
  nickname : String
deriving DecidableEq, Repr

/-- Splits a character list at every dot, for the token codec below. -/
def splitDotsAux : List Char → List Char → List (List Char)
  | [], acc => [acc.reverse]
  | c :: rest, acc =>
    if c = '.' then acc.reverse :: splitDotsAux rest [] else splitDotsAux rest (c :: acc)

/-- Splits a string at every dot. -/
def splitDots (s : String) : List String :=
  (splitDotsAux s.data []).map (fun cs => String.mk cs)

/-- Digit-string to number, for the token codec below. -/
def digitsToNat? (cs : List Char) : Option Nat :=
  if cs ≠ [] ∧ cs.all Char.isDigit then
    some (cs.foldl (fun acc c => acc * 10 + (c.toNat - 48)) 0)
  else
    none

/-- `sign({ id, nickname }, secret)` from jsonwebtoken, modelled by a concrete
reversible encoding: the token carries its payload and the secret it was
signed with. -/
def jwtSign (id : Nat) (nickname : String) (secret : String) : String :=
  "jwt." ++ toString id ++ "." ++ nickname ++ "." ++ secret

/-- `verify(token, secret)` from jsonwebtoken, modelled over the codec of
`jwtSign`: a token that does not decode is malformed, and a token signed
under a different secret fails the signature check; both failures are thrown
errors, never a null result. -/
def jwtVerify (token : String) (secret : String) : Except JsError JwtPayload :=
  match splitDots token with
  | [magic, idStr, nickname, sec] =>
    if magic = "jwt" then
      match digitsToNat? idStr.data with
      | some id =>
        if sec = secret then
          Except.ok { id := id, nickname := nickname }
        else
          Except.error (JsError.jwtError "invalid signature")
      | none => Except.error (JsError.jwtError "jwt malformed")
    else
      Except.error (JsError.jwtError "jwt malformed")
  | _ => Except.error (JsError.jwtError "jwt malformed")

/-- `process.env.APP_SECRET`: the single signing secret supplied out of band. -/
def appSecret : String := "app-secret"

/-- One step of `String.replace s "Bearer " ""`: fuel-indexed removal of every
occurrence of the literal `"Bearer "` from a character list. -/
def replaceBearerAux : Nat → List Char → List Char
  | 0, cs => cs
  | _ + 1, [] => []
  | n + 1, c :: rest =>
    if (c :: rest).take 7 = "Bearer ".data then
      replaceBearerAux n ((c :: rest).drop 7)
    else
      c :: replaceBearerAux n rest

/-- `authorization.replace("Bearer ", "")`: removes every occurrence of the
literal `"Bearer "`, which for a well-formed header strips the scheme prefix. -/
def stripBearer (s : String) : String :=
  String.mk (replaceBearerAux s.data.length s.data)

/-- An incoming request or connection payload, reduced to the single header
the identity resolver reads: `req.get("Authorization")`. -/
structure Request where
  authorization : Option String
deriving DecidableEq, Repr

/-- The identity resolver `getUser` of the real-time variant: a missing
`Authorization` value yields null, a verified token whose user no longer
exists yields null, and otherwise the full user is fetched.  A failed
verification is NOT caught here: `verify` throws and the error propagates. -/
def getUser (store : Store) (req : Request) : Except JsError (Option User) :=
  match req.authorization with
  | none => Except.ok none
  | some authorization =>
    let token := stripBearer authorization
    match jwtVerify token appSecret with
    | Except.error e => Except.error e
    | Except.ok payload =>
      let meIsExists := store.userExists payload.id
      if !meIsExists then
        Except.ok none
      else
        Except.ok (store.userById payload.id)

/-- An event flowing through the topic bus: the second argument of
`pubsub.publish(conversation, ...)` is the object `{ message }`. -/
structure MessageEvent where
  message : Message
deriving DecidableEq, Repr

/-- One active subscriber of the topic bus: its registration id, the topic
(conversation id) it listens on, and the events delivered to its stream so
far, in delivery order. -/
structure Subscriber where
  sid : Nat
  topic : Nat
  stream : List MessageEvent
deriving DecidableEq, Repr

/-- Modelled from the spec: the in-process Topic Bus (`new PubSub()` of
graphql-yoga), a topic-keyed registry of active subscriber streams. -/
structure PubSub where
  subscribers : List Subscriber
  nextSid : Nat
deriving DecidableEq, Repr

/-- Modelled from the spec: `pubsub.publish(topic, event)` delivers the event
to every currently-active subscriber stream registered under `topic`, and to
no other stream; subscribers not listening at publish time never see it. -/
def PubSub.publish (ps : PubSub) (topic : Nat) (ev : MessageEvent) : PubSub :=
  { ps with
    subscribers := ps.subscribers.map (fun s =>
      if s.topic = topic then { s with stream := s.stream ++ [ev] } else s) }

/-- Modelled from the spec: `pubsub.asyncIterator(topic)` registers a fresh
subscriber stream under `topic` (empty until events are published) and
returns it. -/
def PubSub.asyncIterator (ps : PubSub) (topic : Nat) : PubSub × Nat :=
  ({ subscribers := ps.subscribers ++ [{ sid := ps.nextSid, topic := topic, stream := [] }]
     nextSid := ps.nextSid + 1 }, ps.nextSid)

/-- The execution context built per operation: the resolved identity (or
null), and handles to the data store and the topic bus. -/
structure Ctx where
  user : Option User
  store : Store
  pubsub : PubSub
deriving DecidableEq, Repr

/-- The arguments of the gated operations: the conversation id argument. -/
structure Args where
  conversation : Nat
deriving DecidableEq, Repr

/-- `existsUserInConv`: fetches the conversation's participants and tests
membership by id equality (`participants.some(({ id }) => userId === id)`).
Reading `.participants()` of a conversation that does not exist throws, as
the property access on a null query result does. -/
def existsUserInConv (store : Store) (userId : Nat) (conversationId : Nat) :
    Except JsError Bool :=
  match store.conversationById conversationId with
  | none => Except.error (JsError.typeError "Cannot read property some of null")
  | some c => Except.ok (c.participants.any (fun id => userId = id))

/-- The rule language of the access-control layer: the two atomic rules
declared with `rule()` and the `and(...)` composition. -/
inductive Rule where
  | isAuthenticated
  | haveUserAccessToConv
  | and (l r : Rule)
deriving DecidableEq, Repr

/-- Evaluation of a rule against (args, ctx).  The atoms follow the source:
`isAuthenticated` tests `ctx.user != null`; `haveUserAccessToConv` reads
`user.id` (throwing a TypeError when the identity is null) and runs the
membership check.  The `and` case is modelled from the spec: the rule
engine's AND composition short-circuits on the first reject. -/
def evalRule : Rule → Args → Ctx → Except JsError Bool
  | Rule.isAuthenticated, _, ctx => Except.ok ctx.user.isSome
  | Rule.haveUserAccessToConv, args, ctx =>
    match ctx.user with
    | none => Except.error (JsError.typeError "Cannot read property id of null")
    | some user => existsUserInConv ctx.store user.id args.conversation
  | Rule.and l r, args, ctx =>
    match evalRule l args ctx with
    | Except.error e => Except.error e
    | Except.ok false => Except.ok false
    | Except.ok true => evalRule r args ctx

/-- The gated fields of the schema: every type-and-field the `shield`
permission map mentions. -/
inductive FieldRef where
  | queryMe
  | mutationSendMessage
  | mutationJoinToConversation
  | subscriptionMessage
  | userConversations
  | userMessages
deriving DecidableEq, Repr

/-- The `shield` permission map of the source, as a field-to-rule table. -/
def permissions : FieldRef → Rule
  | FieldRef.queryMe => Rule.isAuthenticated
  | FieldRef.mutationSendMessage => Rule.and Rule.isAuthenticated Rule.haveUserAccessToConv
  | FieldRef.mutationJoinToConversation => Rule.isAuthenticated
  | FieldRef.subscriptionMessage => Rule.and Rule.isAuthenticated Rule.haveUserAccessToConv
  | FieldRef.userConversations => Rule.isAuthenticated
  | FieldRef.userMessages => Rule.isAuthenticated

/-- The field-level gate table exactly as the specification's table states
it, written independently of `permissions` so the two can be compared. -/
def specGateTable : FieldRef → Rule
  | FieldRef.queryMe => Rule.isAuthenticated
  | FieldRef.mutationSendMessage => Rule.and Rule.isAuthenticated Rule.haveUserAccessToConv
  | FieldRef.mutationJoinToConversation => Rule.isAuthenticated
  | FieldRef.subscriptionMessage => Rule.and Rule.isAuthenticated Rule.haveUserAccessToConv
  | FieldRef.userConversations => Rule.isAuthenticated
  | FieldRef.userMessages => Rule.isAuthenticated

/-- The shield middleware around a field: the field's rules run first, and
only when they all accept does the resolver body run; a reject aborts the
operation with the uniform authorization error, and a rule error propagates.
The resolver is an arbitrary state transformer, so "the resolver never runs"
is visible as the state passing through untouched. -/
def guardedExec {α : Type} (r : Rule) (args : Args) (ctx : Ctx)
    (resolver : Ctx → Except JsError (α × Store × PubSub)) :
    Except JsError (α × Store × PubSub) :=
  match evalRule r args ctx with
  | Except.error e => Except.error e
  | Except.ok false => Except.error JsError.notAuthorised
  | Except.ok true => resolver ctx

/-- `prisma.updateConversation` with a `participants: connect` clause: links
the given user into the conversation's participant set (a no-op when the link
already exists, since connect is idempotent) and returns the updated
conversation. -/
def updateConversationConnect (store : Store) (conversationId : Nat) (userId : Nat) :
    Store × Option Conversation :=
  let conversations := store.conversations.map (fun c =>
    if c.id = conversationId then
      if c.participants.contains userId then c
      else { c with participants := c.participants ++ [userId] }
    else c)
  let store2 := { store with conversations := conversations }
  (store2, store2.conversationById conversationId)

/-- In the source, `joinToConversation` binds `existsUserInConv(...)` WITHOUT
awaiting it, so the subsequent truthiness test sees a Promise object, which
is always truthy in JavaScript. -/
def isExistsInConvTruthy : Bool := true

/-- The `joinToConversation` resolver: reads `user.id` (throwing on a null
identity), runs the unawaited membership pre-check, enters the
participant-connect branch only when that pre-check is falsy, and returns
the conversation fetched by id. -/
def joinToConversation (ctx : Ctx) (conversationId : Nat) :
    Except JsError (Store × Option Conversation) :=
  match ctx.user with
  | none => Except.error (JsError.typeError "Cannot read property id of null")
  | some user =>
    if !isExistsInConvTruthy then
      Except.ok (updateConversationConnect ctx.store conversationId user.id)
    else
      Except.ok (ctx.store, ctx.store.conversationById conversationId)

/-- `prisma.createMessage`: persists a new message connected to its author
and conversation, with a fresh id. -/
def createMessage (store : Store) (authorId : Nat) (conversationId : Nat) (body : String) :
    Store × Message :=
  let m : Message :=
    { id := store.nextMessageId, body := body
      authorId := authorId, conversationId := conversationId }
  ({ store with messages := store.messages ++ [m], nextMessageId := store.nextMessageId + 1 }, m)

/-- The outcome of `sendMessage`: the store holding the persisted message,
the topic bus after the publish, and the message the resolver returns. -/
structure SendResult where
  store : Store
  pubsub : PubSub
  message : Message
deriving DecidableEq, Repr

/-- The `sendMessage` resolver: reads `user.id` (throwing on a null
identity), persists the message through `prisma.createMessage`, then
publishes `{ message }` on the topic equal to the conversation id, and
returns the message. -/
def sendMessage (ctx : Ctx) (conversationId : Nat) (body : String) :
    Except JsError SendResult :=
  match ctx.user with
  | none => Except.error (JsError.typeError "Cannot read property id of null")
  | some user =>
    let r := createMessage ctx.store user.id conversationId body
    let pubsub2 := ctx.pubsub.publish conversationId { message := r.2 }
    Except.ok { store := r.1, pubsub := pubsub2, message := r.2 }

/-- The `Subscription.message.subscribe` resolver:
`pubsub.asyncIterator(conversationId)`. -/
def subscribeMessage (ctx : Ctx) (conversationId : Nat) : PubSub × Nat :=
  ctx.pubsub.asyncIterator conversationId

/-- The server's context function: resolves the identity through `getUser`
(so an error thrown there propagates) and bundles it with the store and the
topic bus. -/
def makeContext (store : Store) (ps : PubSub) (req : Request) : Except JsError Ctx :=
  match getUser store req with
  | Except.error e => Except.error e
  | Except.ok u => Except.ok { user := u, store := store, pubsub := ps }

/-- The participant set of a conversation in a given store (empty when the
conversation does not exist), used to state participant-set properties. -/
def conversationParticipants (store : Store) (conversationId : Nat) : List Nat :=
  match store.conversationById conversationId with
  | none => []
  | some c => c.participants

/-- A JavaScript Date object: a valid instant identified by its millisecond
epoch value, or the Invalid Date produced by an unparseable input. -/
inductive JsDate where
  | valid (epochMs : Int)
  | invalid
deriving DecidableEq, Repr

/-- The JavaScript values the Date scalar's hooks can meet: strings, numbers,
the number NaN, Date objects and null. -/
inductive JsValue where
  | str (s : String)
  | num (n : Int)
  | nan
  | date (d : JsDate)
  | null
deriving DecidableEq, Repr

/-- Gregorian leap-year test, for the date-string parse below. -/
def isLeapYear (y : Nat) : Bool :=
  (y % 4 = 0 && y % 100 ≠ 0) || y % 400 = 0

/-- Days from 1970-01-01 to the start of year `y` (negative before 1970). -/
def daysFrom1970 (y : Nat) : Int :=
  if 1970 ≤ y then
    ((List.range (y - 1970)).map (fun i => if isLeapYear (1970 + i) then (366 : Int) else 365)).sum
  else
    -(((List.range (1970 - y)).map (fun i => if isLeapYear (y + i) then (366 : Int) else 365)).sum)

/-- Millisecond epoch of midnight UTC, January 1 of year `y`. -/
def epochOfYearStart (y : Nat) : Int :=
  daysFrom1970 y * 86400000

/-- Modelled ECMAScript date-string parse, restricted to the all-digit
strings that reach it here (the string forms of INT literals): among those,
only a four-digit string matches the Date Time String Format (as the
year-only form YYYY, midnight UTC on January 1); every other all-digit
string, in particular a millisecond-epoch string, yields an Invalid Date. -/
def jsDateParse (s : String) : JsDate :=
  if s.data.length = 4 && s.data.all Char.isDigit then
    match digitsToNat? s.data with
    | some y => JsDate.valid (epochOfYearStart y)
    | none => JsDate.invalid
  else
    JsDate.invalid

/-- The JavaScript `new Date(value)` constructor: a number is a millisecond
epoch, a string goes through the date-string parse, NaN gives an Invalid
Date, a Date is copied, and null coerces to the number 0. -/
def jsNewDate (value : JsValue) : JsDate :=
  match value with
  | JsValue.num n => JsDate.valid n
  | JsValue.str s => jsDateParse s
  | JsValue.nan => JsDate.invalid
  | JsValue.date d => d
  | JsValue.null => JsDate.valid 0

/-- The Date scalar's `serialize`: a value already in string form is returned
unchanged; otherwise `value.getTime()` is returned (the epoch number of a
valid Date, NaN for an Invalid Date, and a thrown TypeError when the value
has no getTime method). -/
def dateSerialize (value : JsValue) : Except JsError JsValue :=
  match value with
  | JsValue.str s => Except.ok (JsValue.str s)
  | JsValue.date (JsDate.valid e) => Except.ok (JsValue.num e)
  | JsValue.date JsDate.invalid => Except.ok JsValue.nan
  | _ => Except.error (JsError.typeError "value.getTime is not a function")

/-- The Date scalar's `parseValue`: `new Date(value)` on the client value. -/
def dateParseValue (value : JsValue) : JsDate :=
  jsNewDate value

/-- The kinds a GraphQL literal AST node can carry. -/
inductive AstKind where
  | intK
  | floatK
  | stringK
  | booleanK
deriving DecidableEq, Repr

/-- A literal AST node: its kind and its value, which the parser always
supplies in string format. -/
structure AstNode where
  kind : AstKind
  value : String
deriving DecidableEq, Repr

/-- The Date scalar's `parseLiteral`: for an INT literal it applies the Date
constructor to `ast.value`, the literal's STRING form; any other kind gives
null. -/
def dateParseLiteral (ast : AstNode) : Option JsDate :=
  if ast.kind = AstKind.intK then
    some (jsNewDate (JsValue.str ast.value))
  else
    none

/-- Fixture: the user alice with id 5. -/
def alice : User := { id := 5, nickname := "alice" }

/-- Fixture: conversation 1 with an empty participant set. -/
def conv0 : Conversation := { id := 1, title := "general", disabled := false, participants := [] }

/-- Fixture: a store holding only alice and conversation 1. -/
def store0 : Store :=
  { users := [alice], conversations := [conv0], messages := [], nextMessageId := 0 }

/-- Fixture: a store with no users at all. -/
def emptyStore : Store :=
  { users := [], conversations := [], messages := [], nextMessageId := 0 }

/-- Fixture: a subscriber on topic 1 with an empty stream. -/
def sub0 : Subscriber := { sid := 0, topic := 1, stream := [] }

/-- Fixture: a subscriber on topic 2 with an empty stream. -/
def sub1 : Subscriber := { sid := 1, topic := 2, stream := [] }

/-- Fixture: a topic bus carrying the two subscribers above. -/
def ps0 : PubSub := { subscribers := [sub0, sub1], nextSid := 2 }

/-- Fixture: an execution context authenticated as alice. -/
def ctx0 : Ctx := { user := some alice, store := store0, pubsub := ps0 }

/-- Fixture: an execution context whose identity is null. -/
def ctxNull : Ctx := { user := none, store := store0, pubsub := ps0 }

/-- Fixture: the message alice sends to conversation 1. -/
def msg0 : Message := { id := 0, body := "hi", authorId := 5, conversationId := 1 }

/-- Fixture: a trivial resolver body used to observe whether it runs. -/
def resolver0 : Ctx → Except JsError (Nat × Store × PubSub) :=
  fun ctx => Except.ok (0, ctx.store, ctx.pubsub)

/-- Fixture: the state after alice sends "hi" to conversation 1 from `ctx0`. -/
def sent0 : SendResult :=
  { store := { users := [alice], conversations := [conv0], messages := [msg0], nextMessageId := 1 }
    pubsub := { subscribers := [{ sid := 0, topic := 1, stream := [{ message := msg0 }] }, sub1]
                nextSid := 2 }
    message := msg0 }

/-- Sanity theorem: a token signed under the app secret verifies back to its
payload, so the codec of `jwtSign` and `jwtVerify` is a genuine round-trip. -/
theorem jwtVerify_sign_roundtrip :
    jwtVerify (jwtSign 5 "alice" appSecret) appSecret =
      Except.ok { id := 5, nickname := "alice" } := by decide

/-- Sanity theorem: the identity resolver fetches the full user for a valid
token of an existing user. -/
theorem getUser_fetches_existing_user :
    getUser store0 { authorization := some ("Bearer " ++ jwtSign 5 "alice" appSecret) } =
      Except.ok (some alice) := by decide

/-- Claim C1: the spec says `joinToConversation` adds the caller to the
participant set when absent; in the code the membership pre-check is bound
without await, so the truthiness test sees a Promise and the connect branch
is dead: the store is returned unchanged and alice, not a participant of
conversation 1, is still not one after joining. -/
theorem joinToConversation_never_updates :
    (∀ (ctx : Ctx) (cid : Nat) (u : User), ctx.user = some u →
      joinToConversation ctx cid = Except.ok (ctx.store, ctx.store.conversationById cid)) ∧
    conversationParticipants store0 1 = [] ∧
    joinToConversation ctx0 1 = Except.ok (store0, some conv0) ∧
    conversationParticipants store0 1 ≠ [alice.id] := by
  refine ⟨?_, by decide, by decide, by decide⟩
  intro ctx cid u h
  simp [joinToConversation, h, isExistsInConvTruthy]

/-- Witness for the universally quantified part of the C1 theorem, at the
concrete authenticated context. -/
theorem joinToConversation_never_updates_witness :
    joinToConversation ctx0 1 = Except.ok (ctx0.store, ctx0.store.conversationById 1) :=
  joinToConversation_never_updates.1 ctx0 1 alice rfl

/-- Claim C2, counterexample: on a token whose verification fails, `getUser`
does not return null; the verification error propagates. -/
theorem getUser_bad_token_not_null :
    getUser emptyStore { authorization := some "Bearer garbage" } =
      Except.error (JsError.jwtError "jwt malformed") ∧
    getUser emptyStore { authorization := some "Bearer garbage" } ≠ Except.ok none := by
  exact ⟨by decide, by decide⟩

/-- Claim C2, amended: when credential verification fails, `getUser`
propagates the thrown verification error instead of returning null (null is
reserved for a missing header or a deleted user). -/
theorem getUser_propagates_verify_error (store : Store) (auth : String) (e : JsError)
    (h : jwtVerify (stripBearer auth) appSecret = Except.error e) :
    getUser store { authorization := some auth } = Except.error e := by
  simp [getUser, h]

/-- Witness for the amended C2 theorem at a concrete malformed token. -/
theorem getUser_propagates_verify_error_witness :
    getUser emptyStore { authorization := some "Bearer garbage" } =
      Except.error (JsError.jwtError "jwt malformed") :=
  getUser_propagates_verify_error emptyStore "Bearer garbage"
    (JsError.jwtError "jwt malformed") (by decide)

/-- Claim C3: the field-to-rule gate table of the shield permission map
coincides, field by field, with the table the specification states. -/
theorem permissions_match_spec_table : ∀ f : FieldRef, permissions f = specGateTable f := by
  intro f
  cases f <;> rfl

/-- Claim C4, counterexample: evaluated on a null identity, the
ConversationMember rule does not reject; it throws the TypeError of reading
id from null. -/
theorem haveUserAccessToConv_crashes_on_null_identity :
    evalRule Rule.haveUserAccessToConv { conversation := 1 } ctxNull =
      Except.error (JsError.typeError "Cannot read property id of null") ∧
    evalRule Rule.haveUserAccessToConv { conversation := 1 } ctxNull ≠ Except.ok false := by
  exact ⟨by decide, by decide⟩

/-- Claim C4, amended: with a null identity the Authenticated rule rejects
and every field-level gate rejects (ConversationMember only ever runs behind
Authenticated under the short-circuiting AND), while the ConversationMember
rule in isolation throws a TypeError rather than rejecting. -/
theorem null_identity_gates_reject (args : Args) (ctx : Ctx) (f : FieldRef)
    (h : ctx.user = none) :
    evalRule Rule.isAuthenticated args ctx = Except.ok false ∧
    evalRule (permissions f) args ctx = Except.ok false ∧
    evalRule Rule.haveUserAccessToConv args ctx =
      Except.error (JsError.typeError "Cannot read property id of null") := by
  refine ⟨by simp [evalRule, h], ?_, by simp [evalRule, h]⟩
  cases f <;> simp [permissions, evalRule, h]

/-- Witness for the amended C4 theorem at the null-identity context and the
sendMessage gate. -/
theorem null_identity_gates_reject_witness :
    evalRule (permissions FieldRef.mutationSendMessage) { conversation := 1 } ctxNull =
      Except.ok false :=
  (null_identity_gates_reject { conversation := 1 } ctxNull FieldRef.mutationSendMessage rfl).2.1

/-- Claim C5: a request without an Authorization value resolves to a null
identity, the context carries that null identity, and every gated field then
aborts with the uniform authorization error before its resolver body runs
(the resolver is never applied: the error is returned in its place). -/
theorem no_auth_rejects_before_resolver {α : Type} (store : Store) (ps : PubSub)
    (req : Request) (args : Args) (f : FieldRef)
    (resolver : Ctx → Except JsError (α × Store × PubSub))
    (h : req.authorization = none) :
    getUser store req = Except.ok none ∧
    makeContext store ps req = Except.ok { user := none, store := store, pubsub := ps } ∧
    guardedExec (permissions f) args { user := none, store := store, pubsub := ps } resolver =
      Except.error JsError.notAuthorised := by
  refine ⟨by simp [getUser, h], by simp [makeContext, getUser, h], ?_⟩
  cases f <;> simp [guardedExec, permissions, evalRule]

/-- Witness for the C5 theorem at a concrete header-free request and the
Query.me gate. -/
theorem no_auth_rejects_before_resolver_witness :
    getUser store0 { authorization := none } = Except.ok none ∧
    makeContext store0 ps0 { authorization := none } =
      Except.ok { user := none, store := store0, pubsub := ps0 } ∧
    guardedExec (permissions FieldRef.queryMe) { conversation := 1 }
      { user := none, store := store0, pubsub := ps0 } resolver0 =
      Except.error JsError.notAuthorised :=
  no_auth_rejects_before_resolver store0 ps0 { authorization := none }
    { conversation := 1 } FieldRef.queryMe resolver0 rfl

/-- Claim C6: `sendMessage` persists the message and publishes exactly that
persisted message on the topic equal to the conversation id: every
subscriber registered on that topic before the publish has the event
appended to its stream, and a subscriber of any other topic is untouched. -/
theorem sendMessage_persists_then_delivers (ctx : Ctx) (cid : Nat) (body : String)
    (u : User) (s : Subscriber) (r : SendResult)
    (h : ctx.user = some u)
    (hr : sendMessage ctx cid body = Except.ok r)
    (hs : s ∈ ctx.pubsub.subscribers) :
    r.message ∈ r.store.messages ∧
    r.message.body = body ∧
    r.message.conversationId = cid ∧
    r.message.authorId = u.id ∧
    (s.topic = cid →
      { s with stream := s.stream ++ [{ message := r.message }] } ∈ r.pubsub.subscribers) ∧
    (s.topic ≠ cid → s ∈ r.pubsub.subscribers) := by
  have hr2 : r = { store := (createMessage ctx.store u.id cid body).1
                   pubsub := ctx.pubsub.publish cid
                     { message := (createMessage ctx.store u.id cid body).2 }
                   message := (createMessage ctx.store u.id cid body).2 } := by
    have : sendMessage ctx cid body =
        Except.ok ({ store := (createMessage ctx.store u.id cid body).1
                     pubsub := ctx.pubsub.publish cid
                       { message := (createMessage ctx.store u.id cid body).2 }
                     message := (createMessage ctx.store u.id cid body).2 } : SendResult) := by
      simp [sendMessage, h]
    rw [this] at hr
    exact (Except.ok.injEq _ _).mp hr.symm
  subst hr2
  refine ⟨by simp [createMessage], by simp [createMessage], by simp [createMessage],
    by simp [createMessage], ?_, ?_⟩
  · intro ht
    exact List.mem_map.mpr ⟨s, hs, by simp [PubSub.publish, ht]⟩
  · intro ht
    exact List.mem_map.mpr ⟨s, hs, by simp [PubSub.publish, ht]⟩

/-- Witness for the C6 theorem: after alice sends "hi" to conversation 1,
the topic-1 subscriber has received exactly that message and the topic-2
subscriber has received nothing. -/
theorem sendMessage_persists_then_delivers_witness :
    ({ sid := 0, topic := 1, stream := [{ message := sent0.message }] } : Subscriber) ∈
      sent0.pubsub.subscribers ∧
    sub1 ∈ sent0.pubsub.subscribers :=
  ⟨(sendMessage_persists_then_delivers ctx0 1 "hi" alice sub0 sent0 rfl (by decide)
      (by decide)).2.2.2.2.1 (by decide),
   (sendMessage_persists_then_delivers ctx0 1 "hi" alice sub1 sent0 rfl (by decide)
      (by decide)).2.2.2.2.2 (by decide)⟩

/-- Claim C7: `joinToConversation` is idempotent on the participant set:
running it a second time from the state the first call produced leaves the
participant set of the conversation exactly as after the first call. -/
theorem joinToConversation_idempotent (ctx : Ctx) (cid : Nat) (u : User)
    (h : ctx.user = some u) :
    ∃ st1 c1 st2 c2,
      joinToConversation ctx cid = Except.ok (st1, c1) ∧
      joinToConversation { ctx with store := st1 } cid = Except.ok (st2, c2) ∧
      conversationParticipants st2 cid = conversationParticipants st1 cid := by
  refine ⟨ctx.store, ctx.store.conversationById cid, ctx.store,
    ctx.store.conversationById cid, ?_, ?_, rfl⟩ <;>
    simp [joinToConversation, h, isExistsInConvTruthy]

/-- Witness for the C7 theorem at the concrete authenticated context. -/
theorem joinToConversation_idempotent_witness :
    ∃ st1 c1 st2 c2,
      joinToConversation ctx0 1 = Except.ok (st1, c1) ∧
      joinToConversation { ctx0 with store := st1 } 1 = Except.ok (st2, c2) ∧
      conversationParticipants st2 1 = conversationParticipants st1 1 :=
  joinToConversation_idempotent ctx0 1 alice rfl

/-- Claim C8: the Date scalar serializes a valid Date to its integer epoch
value, `parseValue` maps that integer back to the same instant, and a value
already in string form passes through `serialize` unchanged. -/
theorem date_scalar_roundtrip (e : Int) (s : String) :
    dateSerialize (JsValue.date (JsDate.valid e)) = Except.ok (JsValue.num e) ∧
    dateParseValue (JsValue.num e) = JsDate.valid e ∧
    dateSerialize (JsValue.str s) = Except.ok (JsValue.str s) :=
  ⟨rfl, rfl, rfl⟩

/-- Claim C9: a credential that verifies but whose decoded id is no longer
in the store resolves to a null identity, not an error. -/
theorem getUser_null_when_user_deleted (store : Store) (auth : String) (payload : JwtPayload)
    (hv : jwtVerify (stripBearer auth) appSecret = Except.ok payload)
    (he : store.userExists payload.id = false) :
    getUser store { authorization := some auth } = Except.ok none := by
  simp [getUser, hv, he]

/-- Witness for the C9 theorem: a token signed for the deleted user 5
against the empty store. -/
theorem getUser_null_when_user_deleted_witness :
    getUser emptyStore { authorization := some "Bearer jwt.5.alice.app-secret" } =
      Except.ok none :=
  getUser_null_when_user_deleted emptyStore "Bearer jwt.5.alice.app-secret"
    { id := 5, nickname := "alice" } (by decide) (by decide)

/-- Claim C10: `parseLiteral` yields null for every non-INT literal, applies
the Date constructor to the STRING form of an INT literal, and therefore on
the epoch literal 1609459200000 produces an Invalid Date while `parseValue`
on the number 1609459200000 produces that valid instant. -/
theorem dateParseLiteral_string_form :
    (∀ ast : AstNode, ast.kind ≠ AstKind.intK → dateParseLiteral ast = none) ∧
    (∀ s : String,
      dateParseLiteral { kind := AstKind.intK, value := s } =
        some (jsNewDate (JsValue.str s))) ∧
    dateParseLiteral { kind := AstKind.intK, value := "1609459200000" } =
      some JsDate.invalid ∧
    dateParseValue (JsValue.num 1609459200000) = JsDate.valid 1609459200000 ∧
    (JsDate.invalid : JsDate) ≠ JsDate.valid 1609459200000 := by
  refine ⟨?_, fun s => rfl, by decide, rfl, by decide⟩
  intro ast h
  simp [dateParseLiteral, h]

/-- Witness for the C10 theorem at a concrete non-INT literal. -/
theorem dateParseLiteral_string_form_witness :
    dateParseLiteral { kind := AstKind.stringK, value := "1970" } = none :=
  dateParseLiteral_string_form.1 { kind := AstKind.stringK, value := "1970" } (by decide)

end Chat
